import Mathlib

/-!
# Verification of the recruiter_agent extraction pipeline

Shallow embedding of the scraping/fallback pipeline
(`src/job_scraper/linkedin_scraper.py`, `src/job_scraper/recruiter_scraper.py`),
the text normalizer (`src/job_scraper/linkedin_profile_scraper.py`), the
document reader (`src/cv_parser/cv_reader.py`) and the Streamlit session-state
machine (`src/app.py`).  Network effects (browser crawls, HTTP requests, LLM
calls) are modelled by passing their outcomes as explicit parameters; a raised
Python exception is modelled as an `Except.error` outcome.
-/

namespace RecruiterAgent

/-! ## Python string primitives -/

/-- Python whitespace characters as recognized by `str.strip` and `\s`
(ASCII range): space, tab, newline, carriage return, vertical tab, form feed. -/
def pyIsSpace (c : Char) : Bool :=
  c = ' ' || c = '\t' || c = '\n' || c = '\r' || c = Char.ofNat 11 || c = Char.ofNat 12

/-- Python `str.strip()` on a character list. -/
def pyStripL (l : List Char) : List Char :=
  ((l.dropWhile pyIsSpace).reverse.dropWhile pyIsSpace).reverse

/-- Python `str.strip()`. -/
def pyStrip (s : String) : String := ⟨pyStripL s.data⟩

/-- Python `str.lower()`, modelled character-wise on ASCII. -/
def strLower (s : String) : String := ⟨s.data.map Char.toLower⟩

/-! ## Scraper pipeline (`linkedin_scraper.py`) -/

/-- The `instructions` sub-dictionary produced by `_create_manual_fallback`. -/
structure Instructions where
  message : String
  steps : List String
  deriving Repr, DecidableEq

/-- A scraping result dictionary as returned by the strategy methods of
`LinkedInScraperEnhanced` and by `_create_manual_fallback`.  Keys absent from a
given Python dict are modelled by their `dict.get` defaults (`success` ↦
`False`, `content` ↦ `""`) or by `none`. -/
structure ScrapeResult where
  success : Bool := false
  content : String := ""
  html : String := ""
  method : Option String := none
  url : String := ""
  error : Option String := none
  scrape_type : String := ""
  instructions : Option Instructions := none
  deriving Repr, DecidableEq

instance : Inhabited ScrapeResult := ⟨{}⟩

/-- Outcome of one strategy invocation: either the dictionary it returned, or
`Except.error ()` when the `await` raised (caught by `scrape_with_fallback`). -/
abbrev StratOutcome := Except Unit ScrapeResult

/-- `_create_manual_fallback(url, scrape_type)`. -/
def createManualFallback (url scrape_type : String) : ScrapeResult :=
  { success := false
    error := some "MANUAL_INPUT_REQUIRED"
    url := url
    scrape_type := scrape_type
    instructions := some
      { message := "Automated " ++ scrape_type ++
          " scraping failed. Please provide the information manually."
        steps :=
          [ "1. Open the LinkedIn " ++ scrape_type ++ " URL in your browser"
          , "2. Copy the relevant " ++ scrape_type ++ " information"
          , "3. Paste it in the manual input field"
          , "4. Click 'Parse Information' to proceed" ] } }

/-- Acceptance test applied by `scrape_with_fallback` after Method 1:
`result.get("success") and len(result.get("content", "")) > 200`
(an exception counts as not accepted). -/
def accept1 : StratOutcome → Bool
  | .error _ => false
  | .ok r => r.success && decide (r.content.length > 200)

/-- Acceptance test applied by `scrape_with_fallback` after Methods 2 and 3:
`result.get("success")` alone. -/
def acceptFlag : StratOutcome → Bool
  | .error _ => false
  | .ok r => r.success

/-- Extract the returned dictionary from a non-raising strategy outcome. -/
def okResult : StratOutcome → ScrapeResult
  | .ok r => r
  | .error _ => default

/-- `scrape_with_fallback(url, scrape_type)`, parameterized by the outcomes of
its three strategy calls.  Besides the returned dictionary, the model records
the 1-based indices of the strategies that were attempted, in order. -/
def scrapeWithFallback (m1 m2 m3 : StratOutcome) (url scrape_type : String) :
    ScrapeResult × List Nat :=
  if accept1 m1 then (okResult m1, [1])
  else if acceptFlag m2 then (okResult m2, [1, 2])
  else if acceptFlag m3 then (okResult m3, [1, 2, 3])
  else (createManualFallback url scrape_type, [1, 2, 3])

/-- Crawler outcome consumed by `_scrape_unauthenticated`
(fields of crawl4ai's result that the function reads). -/
structure CrawlResult where
  success : Bool
  markdown : String
  cleaned_html : String
  deriving Repr, DecidableEq

/-- `_scrape_unauthenticated(url, scrape_type)`, parameterized by the crawl
outcome: accepts only when the crawl succeeded and the stripped markdown is
strictly longer than 200 characters. -/
def scrapeUnauthenticated (url : String) (r : CrawlResult) : ScrapeResult :=
  if r.success && decide ((pyStrip r.markdown).length > 200) then
    { success := true
      content := r.markdown
      html := r.cleaned_html
      method := some "unauthenticated_direct"
      url := url }
  else
    { success := false, error := some "Insufficient content or blocked" }

example :
    (scrapeWithFallback (.error ()) (.ok { success := true }) (.error ()) "u" "job").2
      = [1, 2] := by decide

/-! ## A small backtracking regular-expression engine

Models the fragment of Python's `re` used by the repository: literals,
character classes, alternation, greedy/lazy repetition, one capturing group
and the `$` anchor, with Python's leftmost-first (ordered backtracking)
match semantics.  `IGNORECASE` is baked into the character predicates when a
pattern is built. -/

/-- Regular-expression abstract syntax.  `chr` is any single-character
matcher (literal or class). -/
inductive RE where
  | eps
  | chr (f : Char → Bool)
  | seq (a b : RE)
  | alt (a b : RE)
  | starG (a : RE)
  | starL (a : RE)
  | grp (a : RE)
  | dollar (multiline : Bool)

/-- Captured text of group 1, if the group participated in the match. -/
structure Caps where
  g1 : Option (List Char) := none
  deriving Repr, DecidableEq

/-- Later group assignments win (as in Python). -/
def mergeCaps (a b : Caps) : Caps := { g1 := b.g1 <|> a.g1 }

/-- All ways `re` can match a prefix of `s`, as (consumed length, captures),
in Python's backtracking preference order: alternation prefers its left
branch, greedy stars prefer more iterations, lazy stars fewer.  Zero-width
star iterations are cut off (none of the repository's patterns has a
nullable repetition body, so this is invisible).  `fuel` bounds recursion
depth. -/
def matchR : Nat → RE → List Char → List (Nat × Caps)
  | 0, _, _ => []
  | fuel + 1, re, s =>
    match re with
    | .eps => [(0, {})]
    | .chr f =>
      match s with
      | [] => []
      | c :: _ => if f c then [(1, {})] else []
    | .seq a b =>
      (matchR fuel a s).flatMap fun nc =>
        (matchR fuel b (s.drop nc.1)).map fun mc => (nc.1 + mc.1, mergeCaps nc.2 mc.2)
    | .alt a b => matchR fuel a s ++ matchR fuel b s
    | .starG a =>
      ((matchR fuel a s).flatMap fun nc =>
        if nc.1 = 0 then []
        else (matchR fuel (.starG a) (s.drop nc.1)).map fun mc =>
          (nc.1 + mc.1, mergeCaps nc.2 mc.2)) ++ [(0, {})]
    | .starL a =>
      (0, ({} : Caps)) :: ((matchR fuel a s).flatMap fun nc =>
        if nc.1 = 0 then []
        else (matchR fuel (.starL a) (s.drop nc.1)).map fun mc =>
          (nc.1 + mc.1, mergeCaps nc.2 mc.2))
    | .grp a => (matchR fuel a s).map fun nc => (nc.1, mergeCaps nc.2 { g1 := some (s.take nc.1) })
    | .dollar ml =>
      if s = [] then [(0, {})]
      else if (if ml then s.head? = some '\n' else s = ['\n']) then [(0, {})] else []

/-- Structural size of a regex, used to compute an adequate fuel bound. -/
def RE.size : RE → Nat
  | .eps => 1
  | .chr _ => 1
  | .seq a b => a.size + b.size + 1
  | .alt a b => a.size + b.size + 1
  | .starG a => a.size + 1
  | .starL a => a.size + 1
  | .grp a => a.size + 1
  | .dollar _ => 1

/-- Fuel that safely covers any backtracking derivation of `re` on `s`. -/
def fuelFor (re : RE) (s : List Char) : Nat := (re.size + 1) * (s.length + 2)

/-- Python's preferred match of `re` at the start of `s` (the first match the
backtracking engine finds), if any. -/
def reFirst (re : RE) (s : List Char) : Option (Nat × Caps) :=
  (matchR (fuelFor re s) re s).head?

/-- `re.search`: leftmost match position (then backtracking preference),
returning (start, length, captures). -/
def reSearchFrom (re : RE) : List Char → Nat → Option (Nat × Nat × Caps)
  | s, idx =>
    match reFirst re s with
    | some (n, c) => some (idx, n, c)
    | none =>
      match s with
      | [] => none
      | _ :: t => reSearchFrom re t (idx + 1)

def reSearch (re : RE) (s : List Char) : Option (Nat × Nat × Caps) :=
  reSearchFrom re s 0

/-- One left-to-right pass of `re.sub(re, '', s)`: each leftmost non-
overlapping match is deleted and scanning resumes after it.  (A zero-width
match emits the current character and advances, as Python does; the
repository's patterns never match the empty string.) -/
def reSubDelAux (re : RE) : Nat → List Char → List Char
  | _, [] => []
  | 0, s => s
  | fuel + 1, c :: t =>
    match reFirst re (c :: t) with
    | some (n, _) =>
      if n = 0 then c :: reSubDelAux re fuel t
      else reSubDelAux re fuel ((c :: t).drop n)
    | none => c :: reSubDelAux re fuel t

/-- `re.sub(re, '', s)`. -/
def reSubDel (re : RE) (s : List Char) : List Char := reSubDelAux re s.length s

/-! Pattern-building helpers. -/

/-- Case-insensitive (`ci = true`) or exact single-character literal. -/
def charEq (ci : Bool) (c : Char) : Char → Bool :=
  fun d => if ci then d.toLower = c.toLower else d = c

/-- A literal string, character by character. -/
def rLit (ci : Bool) (str : String) : RE :=
  str.data.foldr (fun c acc => .seq (.chr (charEq ci c)) acc) .eps

/-- `.` (any character except newline). -/
def rDot : RE := .chr (fun c => c ≠ '\n')

/-- `\d` (modelled on ASCII digits). -/
def rDigit : RE := .chr Char.isDigit

/-- `\s`. -/
def rWs : RE := .chr pyIsSpace

/-- Sequence of regexes. -/
def rSeq (l : List RE) : RE := l.foldr .seq .eps

/-- Greedy `+`. -/
def rPlusG (a : RE) : RE := .seq a (.starG a)

/-- Lazy `+?`. -/
def rPlusL (a : RE) : RE := .seq a (.starL a)

/-- Greedy `?`. -/
def rOptG (a : RE) : RE := .alt a .eps

/-! ## Content cleaning (`linkedin_profile_scraper.py`, `clean_text`) -/

/-- `re.sub(r'\s+', ' ', ·)`: every maximal run of whitespace becomes a
single space.  The boolean tracks whether the previous character was
whitespace. -/
def collapseAux : Bool → List Char → List Char
  | _, [] => []
  | prevWs, c :: t =>
    if pyIsSpace c then
      if prevWs then collapseAux true t else ' ' :: collapseAux true t
    else c :: collapseAux false t

def collapseWs (l : List Char) : List Char := collapseAux false l

/-- The `ui_patterns` list of `clean_text`, compiled (all with
`re.IGNORECASE`). -/
def uiPatterns : List RE :=
  [ rSeq [rLit true "Show more", .starL rDot, rLit true "Show less"]
  , rSeq [rLit true "See more", .starL rDot, rLit true "See less"]
  , rLit true "…see more"
  , rSeq [rLit true "Show all ", rPlusG rDigit, rLit true " experience", rOptG (.chr (charEq true 's'))]
  , rSeq [rLit true "Show all ", rPlusG rDigit, rLit true " education", rOptG (.chr (charEq true 's'))]
  , rSeq [rPlusG rDigit, rLit true " mutual connection", rOptG (.chr (charEq true 's'))]
  , rSeq [rLit true "Connect", .starG rWs, rLit true "Message", .starG rWs, rLit true "More"]
  , rSeq [rLit true "Follow", .starG rWs, rLit true "Message", .starG rWs, rLit true "More"]
  , rSeq [rLit true "View profile", .starL rDot, rLit true "View profile"]
  , rSeq [rLit true "Send message", .starL rDot, rLit true "Send message"] ]

/-- The `for pattern in ui_patterns: text = re.sub(pattern, '', text, ...)`
loop of `clean_text`. -/
def removeUI (l : List Char) : List Char :=
  uiPatterns.foldl (fun acc p => reSubDel p acc) l

/-- `clean_text(text)` on the underlying character list of a non-empty
string: strip, collapse whitespace, remove UI noise patterns, strip again. -/
def cleanTextL (l : List Char) : List Char :=
  pyStripL (removeUI (collapseWs (pyStripL l)))

/-- `clean_text(text)` (`linkedin_profile_scraper.py` lines 255–278).  A
falsy (empty) input returns `""` directly. -/
def cleanText (text : String) : String :=
  if text = "" then "" else ⟨cleanTextL text.data⟩

example : cleanText "  hello   world " = "hello world" := by decide

/-! ## Company page scraping and parsing (`recruiter_scraper.py`) -/

/-- Search honoring a `^` at the start of the pattern under `re.MULTILINE`:
only positions at the start of the string or directly after a newline are
tried. -/
def reSearchLS (re : RE) : List Char → Nat → Bool → Option (Nat × Nat × Caps)
  | s, idx, atLS =>
    match (if atLS then reFirst re s else none) with
    | some (n, c) => some (idx, n, c)
    | none =>
      match s with
      | [] => none
      | c :: t => reSearchLS re t (idx + 1) (c = '\n')

/-- ASCII letter. -/
def isAsciiAlpha (c : Char) : Bool := ('A' ≤ c && c ≤ 'Z') || ('a' ≤ c && c ≤ 'z')

/-- `[A-Z]` without `IGNORECASE`. -/
def clsUpper (c : Char) : Bool := 'A' ≤ c && c ≤ 'Z'

/-- `[A-Z]` under `IGNORECASE` (any ASCII letter). -/
def clsUpperCI (c : Char) : Bool := isAsciiAlpha c

/-- The character class `[a-zA-Z\s&.,Inc-]` = `[a-zA-Z\s,&.-]` (the letters
`I`, `n`, `c` are already covered by the ranges). -/
def clsWordy (c : Char) : Bool :=
  isAsciiAlpha c || pyIsSpace c || c = ',' || c = '&' || c = '.' || c = '-'

/-- The character class `[a-zA-Z\s,.-]`. -/
def clsLoc (c : Char) : Bool :=
  isAsciiAlpha c || pyIsSpace c || c = ',' || c = '.' || c = '-'

/-- `(?:\n|$)`. -/
def endAlt (ml : Bool) : RE := .alt (.chr (· = '\n')) (.dollar ml)

/-- `\d{4}`. -/
def rYear : RE := rSeq [rDigit, rDigit, rDigit, rDigit]

/-- `(\d+(?:,\d+)*(?:-\d+(?:,\d+)*)?)` — the size capture group. -/
def rNumList : RE := .seq (rPlusG rDigit) (.starG (.seq (.chr (· = ',')) (rPlusG rDigit)))

def sizeGroup : RE := .grp (.seq rNumList (rOptG (.seq (.chr (· = '-')) rNumList)))

/-- `company_name_patterns` (searched with `re.MULTILINE`); the boolean marks
a leading `^`. -/
def companyNamePats : List (Bool × RE) :=
  [ (true, rSeq [.chr (· = '#'), rPlusG rWs, .grp (rPlusL rDot), endAlt true])
  , (false, rSeq [.grp (.seq (.chr clsUpper) (rPlusL (.chr clsWordy))), rPlusG rWs,
      .chr (· = '|'), rPlusG rWs, rLit false "LinkedIn"])
  , (true, rSeq [.grp (rPlusL rDot), rPlusG rWs, rLit false "LinkedIn"])
  , (false, rSeq [rLit false "About", rPlusG rWs,
      .grp (.seq (.chr clsUpper) (rPlusL (.chr clsWordy))), endAlt true]) ]

/-- `industry_patterns` (searched with `re.IGNORECASE`). -/
def industryPats : List RE :=
  [ rSeq [rLit true "Industry:", .starG rWs,
      .grp (.seq (.chr clsUpperCI) (rPlusL (.chr clsWordy))), endAlt false]
  , rSeq [.grp (.seq (.chr clsUpperCI) (rPlusL (.chr clsWordy))), rPlusG rWs,
      rLit true "industry"]
  , rSeq [rLit true "We are", rPlusG rWs, .alt (rLit true "a") (rLit true "an"),
      rPlusG rWs, .grp (rPlusL (.chr clsWordy)), rPlusG rWs, rLit true "company"] ]

/-- `size_patterns` (searched with `re.IGNORECASE`). -/
def sizePats : List RE :=
  [ rSeq [sizeGroup, rPlusG rWs, rLit true "employees"]
  , rSeq [rLit true "Size:", .starG rWs, sizeGroup]
  , rSeq [rLit true "Company size:", .starG rWs, sizeGroup] ]

/-- `location_patterns` (searched with `re.MULTILINE`). -/
def locationPats : List RE :=
  [ rSeq [rLit false "Headquarters:", .starG rWs,
      .grp (.seq (.chr clsUpper) (rPlusL (.chr clsLoc))), endAlt true]
  , rSeq [rLit false "Location:", .starG rWs,
      .grp (.seq (.chr clsUpper) (rPlusL (.chr clsLoc))), endAlt true]
  , rSeq [rLit false "Based in", rPlusG rWs,
      .grp (.seq (.chr clsUpper) (rPlusL (.chr clsLoc))), endAlt true]
  , rSeq [.grp (.seq (.chr clsUpper) (rPlusL (.chr clsLoc))), .chr (· = ','), .starG rWs,
      .alt (rLit false "United States") (.alt (rLit false "USA") (rLit false "US"))] ]

/-- `founded_patterns` (no flags). -/
def foundedPats : List RE :=
  [ rSeq [rLit false "Founded:", .starG rWs, .grp rYear]
  , rSeq [rLit false "Founded in", rPlusG rWs, .grp rYear]
  , rSeq [rLit false "Since", rPlusG rWs, .grp rYear]
  , rSeq [rLit false "Established", rPlusG rWs, .grp rYear] ]

/-- Search one pattern (with its caret flag) in multiline mode, returning
group 1. -/
def searchG1ML (p : Bool × RE) (s : List Char) : Option (List Char) :=
  match (if p.1 then reSearchLS p.2 s 0 true else reSearch p.2 s) with
  | some (_, _, caps) => some (caps.g1.getD [])
  | none => none

/-- Search one pattern without caret, returning group 1. -/
def searchG1 (re : RE) (s : List Char) : Option (List Char) :=
  match reSearch re s with
  | some (_, _, caps) => some (caps.g1.getD [])
  | none => none

/-- Company metadata dictionary (`parse_company_content` /
`parse_manual_company_text` result).  The `source` key is present only in
the manual parser's result. -/
structure CompanyMeta where
  company_name : String
  industry : String
  company_size : String
  headquarters : String
  founded : String
  source_url : String
  source : Option String := none
  deriving Repr, DecidableEq

/-- The company-name loop of `parse_company_content`: first pattern whose
stripped group 1 has length in (1, 100) wins; `" | LinkedIn"` is removed
from the winner. -/
def companyNameLoop : List (Bool × RE) → List Char → String
  | [], _ => "Unknown Company"
  | p :: rest, s =>
    match searchG1ML p s with
    | some g =>
      let potential := pyStrip ⟨g⟩
      if potential.length > 1 ∧ potential.length < 100 then
        pyStrip (potential.replace " | LinkedIn" "")
      else companyNameLoop rest s
    | none => companyNameLoop rest s

/-- The industry loop of `parse_company_content`: validated length (3, 50). -/
def industryLoop : List RE → List Char → String
  | [], _ => "Not specified"
  | p :: rest, s =>
    match searchG1 p s with
    | some g =>
      let potential := pyStrip ⟨g⟩
      if potential.length > 3 ∧ potential.length < 50 then potential
      else industryLoop rest s
    | none => industryLoop rest s

/-- The size loop of `parse_company_content` (no validation). -/
def sizeLoop : List RE → List Char → String
  | [], _ => "Not specified"
  | p :: rest, s =>
    match searchG1 p s with
    | some g => (⟨g⟩ : String) ++ " employees"
    | none => sizeLoop rest s

/-- The location loop of `parse_company_content`: validated length (2, 100). -/
def locationLoop : List RE → List Char → String
  | [], _ => "Not specified"
  | p :: rest, s =>
    match searchG1 p s with
    | some g =>
      let potential := pyStrip ⟨g⟩
      if potential.length > 2 ∧ potential.length < 100 then potential
      else locationLoop rest s
    | none => locationLoop rest s

/-- The founded loop of `parse_company_content` (no validation). -/
def foundedLoop : List RE → List Char → String
  | [], _ => "Not specified"
  | p :: rest, s =>
    match searchG1 p s with
    | some g => ⟨g⟩
    | none => foundedLoop rest s

/-- `parse_company_content(markdown_content, company_url)`. -/
def parse_company_content (markdown_content company_url : String) : CompanyMeta :=
  { company_name := companyNameLoop companyNamePats markdown_content.data
    industry := industryLoop industryPats markdown_content.data
    company_size := sizeLoop sizePats markdown_content.data
    headquarters := locationLoop locationPats markdown_content.data
    founded := foundedLoop foundedPats markdown_content.data
    source_url := company_url }

/-! ### Manual company text helpers (`recruiter_scraper.py` lines 271–372) -/

/-- `^(About\s+|Company:\s*)` with `re.IGNORECASE` (used by
`extract_company_name_from_text` via `re.sub(..., '', line)`; anchored, so it
can only remove a prefix of the line). -/
def namePrefixRE : RE :=
  .grp (.alt (.seq (rLit true "About") (rPlusG rWs))
             (.seq (rLit true "Company:") (.starG rWs)))

def stripNamePrefix (s : String) : String :=
  match reFirst namePrefixRE s.data with
  | some (n, _) => ⟨s.data.drop n⟩
  | none => s

/-- `extract_company_name_from_text(text)`: first of the first three
stripped lines with length in (2, 100), with a leading `About `/`Company:`
prefix removed; skipped if the removal leaves nothing. -/
def extract_company_name_from_text (text : String) : String :=
  nameFromLines (((pyStrip text).splitOn "\n").take 3)
where
  nameFromLines : List String → String
    | [] => "Company Name (Manual Input)"
    | line :: rest =>
      let line := pyStrip line
      if line ≠ "" ∧ line.length > 2 ∧ line.length < 100 then
        let stripped := stripNamePrefix line
        if stripped ≠ "" then stripped else nameFromLines rest
      else nameFromLines rest

/-- `extract_industry_from_text(text)`: same patterns as
`parse_company_content`, but no length validation and a manual-input
default. -/
def extract_industry_from_text (text : String) : String :=
  loop industryPats
where
  loop : List RE → String
    | [] => "Industry (Manual Input)"
    | p :: rest =>
      match searchG1 p text.data with
      | some g => pyStrip ⟨g⟩
      | none => loop rest

/-- `extract_size_from_text(text)`. -/
def extract_size_from_text (text : String) : String :=
  loop sizePats
where
  loop : List RE → String
    | [] => "Size (Manual Input)"
    | p :: rest =>
      match searchG1 p text.data with
      | some g => (⟨g⟩ : String) ++ " employees"
      | none => loop rest

/-- `extract_location_from_text(text)` (patterns searched with
`re.MULTILINE`). -/
def extract_location_from_text (text : String) : String :=
  loop locationPats
where
  loop : List RE → String
    | [] => "Location (Manual Input)"
    | p :: rest =>
      match searchG1 p text.data with
      | some g => pyStrip ⟨g⟩
      | none => loop rest

/-- `extract_founded_from_text(text)`. -/
def extract_founded_from_text (text : String) : String :=
  loop foundedPats
where
  loop : List RE → String
    | [] => "Founded (Manual Input)"
    | p :: rest =>
      match searchG1 p text.data with
      | some g => ⟨g⟩
      | none => loop rest

/-- `parse_manual_company_text(company_text, company_url)`. -/
def parse_manual_company_text (company_text company_url : String) : CompanyMeta :=
  { company_name := extract_company_name_from_text company_text
    industry := extract_industry_from_text company_text
    company_size := extract_size_from_text company_text
    headquarters := extract_location_from_text company_text
    founded := extract_founded_from_text company_text
    source_url := company_url
    source := some "Manual input" }

/-- `format_manual_company_text(company_text, company_url)`. -/
def format_manual_company_text (company_text company_url : String) : String :=
  "# " ++ extract_company_name_from_text company_text ++
  "\n\n**Source URL:** " ++ company_url ++
  "\n\n## Company Information\n\n" ++ pyStrip company_text ++
  "\n\n---\n**Source:** Manual input from LinkedIn company page\n"

/-! ### URL validation (`is_valid_linkedin_company_url`) -/

/-- Substring containment (Python's `in` on strings). -/
def containsSub (needle : List Char) : List Char → Bool
  | [] => needle.isPrefixOf []
  | c :: t => needle.isPrefixOf (c :: t) || containsSub needle t

/-- Characters allowed in a URL scheme after the initial letter. -/
def isSchemeChar (c : Char) : Bool :=
  isAsciiAlpha c || c.isDigit || c = '+' || c = '-' || c = '.'

/-- `urllib.parse.urlparse(url)`, restricted to the `netloc` and `path`
components (the only ones the repository reads).  Splits off the fragment,
then the scheme, then `//netloc`, then the query. -/
def urlNetlocPath (url : String) : String × String :=
  let l := (url.data.takeWhile (· ≠ '#'))
  let afterScheme :=
    match l.findIdx? (· = ':') with
    | some i =>
      let cand := l.take i
      match cand with
      | [] => l
      | c0 :: restc =>
        if isAsciiAlpha c0 && restc.all isSchemeChar then l.drop (i + 1) else l
    | none => l
  if ("//".data).isPrefixOf afterScheme then
    let rest := afterScheme.drop 2
    let netloc := rest.takeWhile (fun c => c ≠ '/' && c ≠ '?')
    let pathq := rest.dropWhile (fun c => c ≠ '/' && c ≠ '?')
    (⟨netloc⟩, ⟨pathq.takeWhile (· ≠ '?')⟩)
  else
    ("", ⟨afterScheme.takeWhile (· ≠ '?')⟩)

/-- `is_valid_linkedin_company_url(url)`: `'linkedin.com' in netloc and
'/company/' in path`. -/
def is_valid_linkedin_company_url (url : String) : Bool :=
  let (netloc, path) := urlNetlocPath url
  containsSub "linkedin.com".data netloc.data && containsSub "/company/".data path.data

example : is_valid_linkedin_company_url "https://www.linkedin.com/company/acme" = true := by
  decide

example : is_valid_linkedin_company_url "https://example.com/company/acme" = false := by
  decide

/-! ### `scrape_linkedin_company` and `fetch_recruiter_info` -/

/-- A company-fetch result dictionary.  A key absent from the Python dict is
`none`. -/
structure CompanyFetch where
  url : String := ""
  markdown : Option String := none
  html : Option String := none
  metadata : Option CompanyMeta := none
  error : Option String := none
  original_error : Option String := none
  instructions : Option Instructions := none
  deriving Repr, DecidableEq

/-- Crawl outcome (with error message) consumed by
`scrape_linkedin_company`; `Except.error msg` models a raised exception
with text `msg`. -/
abbrev CrawlOutcome := Except String CrawlResult

/-- The crawl result's `error_message` attribute for the failure branch. -/
structure CrawlFailure where
  error_message : String

/-- `scrape_linkedin_company(company_url)`, parameterized by the crawler
outcome.  `errMsg` is `result.error_message` when the crawl reports
failure. -/
def scrape_linkedin_company (company_url : String) (crawl : CrawlOutcome)
    (errMsg : String) : CompanyFetch :=
  match crawl with
  | .error e =>
    { url := company_url
      error := some ("Company scraping exception: " ++ e)
      markdown := some "", html := some "", metadata := none }
  | .ok r =>
    if r.success then
      if (pyStrip r.markdown).length < 200 then
        { url := company_url
          error := some "Company page content too short - likely blocked or login required" }
      else
        { url := company_url
          markdown := some r.markdown
          html := some r.cleaned_html
          metadata := some (parse_company_content r.markdown company_url) }
    else
      { url := company_url
        error := some ("Company scraping failed: " ++ errMsg)
        markdown := some "", html := some "", metadata := none }

/-- `create_manual_company_input_prompt(company_url, error_message)`. -/
def create_manual_company_input_prompt (company_url error_message : String) : CompanyFetch :=
  { url := company_url
    markdown := some ""
    html := some ""
    metadata := none
    error := some "MANUAL_INPUT_REQUIRED"
    original_error := some error_message
    instructions := some
      { message := "Direct company scraping failed. Please copy and paste the company information manually."
        steps :=
          [ "1. Open the LinkedIn company page in your browser"
          , "2. Copy the company description and key details"
          , "3. Paste it in the manual input field"
          , "4. Click 'Parse Company Information' to proceed" ] } }

/-- Python truthiness of `manual_text and manual_text.strip()`. -/
def manualTextProvided : Option String → Bool
  | none => false
  | some t => decide (t ≠ "") && decide (pyStrip t ≠ "")

/-- `fetch_recruiter_info(company_url, manual_company_text)`, parameterized
by the crawl outcome of the automated branch.  (The outer `try/except` can
only fire on exceptions escaping `scrape_linkedin_company`, which catches
everything; it is therefore not modelled.) -/
def fetch_recruiter_info (company_url : String) (manual_company_text : Option String)
    (crawl : CrawlOutcome) (crawlErrMsg : String) : CompanyFetch :=
  if manualTextProvided manual_company_text then
    let t := manual_company_text.getD ""
    { url := company_url
      markdown := some (format_manual_company_text t company_url)
      html := some ""
      metadata := some (parse_manual_company_text t company_url) }
  else if ¬ is_valid_linkedin_company_url company_url then
    create_manual_company_input_prompt company_url "Invalid LinkedIn company URL"
  else
    let result := scrape_linkedin_company company_url crawl crawlErrMsg
    if (result.error.getD "") ≠ "" then
      create_manual_company_input_prompt company_url (result.error.getD "")
    else result

/-- `fetch_recruiter_info_sync` is a direct wrapper. -/
def fetch_recruiter_info_sync (company_url : String) (manual_company_text : Option String)
    (crawl : CrawlOutcome) (crawlErrMsg : String) : CompanyFetch :=
  fetch_recruiter_info company_url manual_company_text crawl crawlErrMsg

/-! ## Document reader (`cv_parser/cv_reader.py`) -/

/-- Python `str.rfind`: index of the last occurrence, `-1` if absent. -/
def rfindI (c : Char) (l : List Char) : Int :=
  match l.reverse.findIdx? (· = c) with
  | some j => (l.length : Int) - 1 - j
  | none => -1

/-- The extension component of `os.path.splitext(p)` (POSIX rules): the part
from the last dot, provided that dot lies after the last `/` and the
basename has a non-dot character before it (so dotfiles have no
extension). -/
def splitextExt (p : String) : String :=
  let l := p.data
  let sep := rfindI '/' l
  let dot := rfindI '.' l
  if dot > sep then
    let start := (sep + 1).toNat
    let seg := (l.drop start).take (dot.toNat - start)
    if seg.any (· ≠ '.') then ⟨l.drop dot.toNat⟩ else ""
  else ""

example : splitextExt "dir/cv.PDF" = ".PDF" := by decide
example : splitextExt "/home/.bashrc" = "" := by decide

/-- `read_cv(file_path)` (the second, effective definition in
`cv_reader.py`, lines 53–62, which shadows the earlier one): dispatch on the
lower-cased extension, with the format-specific readers passed as
parameters (they are out-of-scope file parsers).  A raised
`ValueError(f"Unsupported file type: {ext}")` is `Except.error`. -/
def read_cv (readPdf readLatex readDocx : String → String) (file_path : String) :
    Except String String :=
  let ext := strLower (splitextExt file_path)
  if ext = ".pdf" then .ok (readPdf file_path)
  else if ext = ".tex" ∨ ext = ".latex" then .ok (readLatex file_path)
  else if ext = ".docx" then .ok (readDocx file_path)
  else .error ("Unsupported file type: " ++ ext)

/-! ## Enhanced job fetch (`linkedin_scraper.py` lines 232–291) -/

/-- `format_manual_job_text` — its body in the source is `pass`, so it
returns Python `None`. -/
def format_manual_job_text (_job_text _job_url : String) : Option String := none

/-- `parse_manual_job_data` — body is `pass`, returns `None`. -/
def parse_manual_job_data (_job_text _job_url : String) : Option Unit := none

/-- `parse_job_content` — body is `pass`, returns `None`. -/
def parse_job_content (_content _job_url : String) : Option Unit := none

/-- A job-fetch result dictionary.  `markdown` is an `Option` because the
manual branch stores the `None` produced by the stub
`format_manual_job_text`.  `metadata` is `none` for Python `None` (the stub
parsers) and `some ()` for the empty dict of the failure branch. -/
structure JobFetch where
  url : String := ""
  markdown : Option String := none
  html : String := ""
  metadata : Option Unit := none
  method : Option String := none
  error : Option String := none
  deriving Repr, DecidableEq

/-- `scrape_linkedin_job_enhanced(job_url)` =
`scrape_with_fallback(job_url, "job")`. -/
def scrape_linkedin_job_enhanced (m1 m2 m3 : StratOutcome) (job_url : String) :
    ScrapeResult × List Nat :=
  scrapeWithFallback m1 m2 m3 job_url "job"

/-- `fetch_linkedin_job_enhanced(job_url, manual_job_text)`, parameterized
by the three strategy outcomes of the automated pipeline. -/
def fetch_linkedin_job_enhanced (m1 m2 m3 : StratOutcome) (job_url : String)
    (manual_job_text : Option String) : JobFetch :=
  if manualTextProvided manual_job_text then
    { url := job_url
      markdown := format_manual_job_text (manual_job_text.getD "") job_url
      html := ""
      metadata := parse_manual_job_data (manual_job_text.getD "") job_url }
  else
    let result := (scrape_linkedin_job_enhanced m1 m2 m3 job_url).1
    if result.success then
      { url := job_url
        markdown := some result.content
        html := result.html
        metadata := parse_job_content result.content job_url
        method := some (result.method.getD "unknown") }
    else
      { url := job_url
        error := some (result.error.getD "Unknown error")
        markdown := some ""
        html := ""
        metadata := some () }

/-! ## Session state machine (`app.py`)

The Streamlit session state is a record of slots; each UI handler is a
transition.  Values produced by out-of-scope calls (CV structuring, LLM job
parsing, recruiter fetching/parsing, matching, letter generation) enter as
parameters.  Python truthiness of such a value is modelled by `Option`:
`none` is falsy (`None`, `{}`, `""`), `some` is truthy. -/

/-- The recruiter-profile fetch dictionary as far as `process_recruiter`
inspects it; the LLM enrichment of the dictionary (`parsed_data`,
`summary`, app.py lines 329–356) only augments the returned value and is
not distinguished by any session-level claim. -/
structure RecruiterFetch where
  error : Option String := none
  markdown : String := ""
  deriving Repr, DecidableEq

/-- `st.session_state` after `init_session_state()`. -/
structure Sess where
  cv_struct : Option String := none
  job_struct : Option String := none
  company_info : Option CompanyFetch := none
  recruiter_profile : Option RecruiterFetch := none
  match_results : Option String := none
  cover_letter : Option String := none
  recruiter_message : Option String := none
  job_manual_required : Bool := false
  company_manual_required : Bool := false
  recruiter_manual_required : Bool := false
  manual_job_text : Option String := none
  manual_company_text : Option String := none
  manual_recruiter_text : Option String := none
  scraping_method : Option String := none
  deriving Repr, DecidableEq

/-- `process_job(job_url)` (app.py lines 255–294): fetches via the enhanced
scraper (reading `manual_job_text` from the session), routes errors to the
manual-required flag, records the scraping method, and hands the markdown
to the LLM parser whose outcome is `parseRes`. -/
def process_job (m1 m2 m3 : StratOutcome) (parseRes : Option String)
    (job_url : String) (s : Sess) : Sess × Option String :=
  let job_raw := fetch_linkedin_job_enhanced m1 m2 m3 job_url s.manual_job_text
  if job_raw.error = some "MANUAL_INPUT_REQUIRED" then
    ({ s with job_manual_required := true }, none)
  else if (job_raw.error.getD "") ≠ "" then
    ({ s with job_manual_required := true }, none)
  else
    let s :=
      if (job_raw.method.getD "") ≠ "" then { s with scraping_method := job_raw.method }
      else s
    (s, parseRes)

/-- `process_company(company_url)` (app.py lines 296–313).  The exception
branch cannot fire in the model because the fetch is total. -/
def process_company (crawl : CrawlOutcome) (crawlErrMsg : String)
    (company_url : String) (s : Sess) : Sess × Option CompanyFetch :=
  if company_url = "" then (s, none)
  else
    let company_raw := fetch_recruiter_info_sync company_url s.manual_company_text crawl crawlErrMsg
    if company_raw.error = some "MANUAL_INPUT_REQUIRED" then
      ({ s with company_manual_required := true }, none)
    else (s, some company_raw)

/-- `process_recruiter(recruiter_url)` (app.py lines 315–360),
parameterized by the outcome of `fetch_recruiter_profile_sync` (an
exception in the fetch or the enrichment is caught and yields `None`). -/
def process_recruiter (recrOutcome : Except Unit RecruiterFetch)
    (recruiter_url : String) (s : Sess) : Sess × Option RecruiterFetch :=
  if recruiter_url = "" then (s, none)
  else
    match recrOutcome with
    | .error _ => (s, none)
    | .ok raw =>
      if raw.error = some "MANUAL_INPUT_REQUIRED" then
        ({ s with recruiter_manual_required := true }, none)
      else (s, some raw)

/-- Which processing steps an analysis action reached. -/
inductive Step where
  | cv
  | job
  | company
  | recruiter
  | matching
  deriving Repr, DecidableEq

/-- Environment outcomes consumed by one click of "Start Enhanced
Analysis". -/
structure AnalyzeEnv where
  cvRes : Option String
  m1 : StratOutcome
  m2 : StratOutcome
  m3 : StratOutcome
  jobParse : Option String
  companyCrawl : CrawlOutcome
  companyCrawlErr : String
  recruiterRes : Except Unit RecruiterFetch
  matchRes : Option String

/-- The 8 slots cleared at the top of the analyze handler (app.py line
609); the manual-required flags and manual texts are not among them. -/
def clearSlots (s : Sess) : Sess :=
  { s with cv_struct := none, job_struct := none, company_info := none,
           recruiter_profile := none, match_results := none, cover_letter := none,
           recruiter_message := none, scraping_method := none }

/-- The state right after the clearing loop and the CV assignment (app.py
lines 609–617). -/
def clearSlotsCv (s : Sess) (cv : Option String) : Sess :=
  { clearSlots s with cv_struct := cv }

/-- The company/recruiter/matching tail of the analyze handler (app.py
lines 631–649), entered once CV and job processing have succeeded. -/
def analyzeTail (env : AnalyzeEnv) (company_url recruiter_url : String) (s3 : Sess) :
    Sess × List Step :=
  let s4 :=
    if company_url ≠ "" then
      let pc := process_company env.companyCrawl env.companyCrawlErr company_url s3
      { pc.1 with company_info := pc.2 }
    else s3
  let t4 : List Step := if company_url ≠ "" then [Step.company] else []
  let s5 :=
    if recruiter_url ≠ "" then
      let pr := process_recruiter env.recruiterRes recruiter_url s4
      { pr.1 with recruiter_profile := pr.2 }
    else s4
  let t5 : List Step := if recruiter_url ≠ "" then [Step.recruiter] else []
  ({ s5 with match_results := env.matchRes }, t4 ++ t5)

/-- The "🚀 Start Enhanced Analysis" click handler (app.py lines 603–651).
`st.stop()` is modelled by returning the state reached so far; the returned
list records which processing steps were attempted, in order. -/
def analyzeClick (env : AnalyzeEnv) (cvFile : Bool)
    (job_url company_url recruiter_url : String) (s0 : Sess) : Sess × List Step :=
  if ¬ cvFile ∨ job_url = "" then (s0, [])
  else
    let s2 := clearSlotsCv s0 env.cvRes
    if env.cvRes = none then (s2, [.cv])
    else
      let pj := process_job env.m1 env.m2 env.m3 env.jobParse job_url s2
      let s3 := { pj.1 with job_struct := pj.2 }
      if pj.2 = none then (s3, [.cv, .job])
      else
        let tail := analyzeTail env company_url recruiter_url s3
        (tail.1, [.cv, .job] ++ tail.2 ++ [.matching])

/-- UI events that mutate the session state. -/
inductive Ev where
  | analyze (env : AnalyzeEnv) (cvFile : Bool) (job_url company_url recruiter_url : String)
  | parseJob (text : String)
  | parseCompany (text : String)
  | parseRecruiter (text : String)
  | genCover (letter : String)
  | genMessage (msg : String)
  | reset

/-- One UI event.  The manual "Parse ..." buttons exist only while the
corresponding manual-required flag is set (`render_manual_input_sections`),
and require non-blank text; the generation buttons exist only when CV and
job structures are present (`render_communication_section`). -/
def stepEv (s : Sess) : Ev → Sess
  | .analyze env f ju cu ru => (analyzeClick env f ju cu ru s).1
  | .parseJob t =>
    if s.job_manual_required ∧ pyStrip t ≠ "" then
      { s with manual_job_text := some t, job_manual_required := false }
    else s
  | .parseCompany t =>
    if s.company_manual_required ∧ pyStrip t ≠ "" then
      { s with manual_company_text := some t, company_manual_required := false }
    else s
  | .parseRecruiter t =>
    if s.recruiter_manual_required ∧ pyStrip t ≠ "" then
      { s with manual_recruiter_text := some t, recruiter_manual_required := false }
    else s
  | .genCover v =>
    if s.cv_struct ≠ none ∧ s.job_struct ≠ none then { s with cover_letter := some v }
    else s
  | .genMessage v =>
    if s.cv_struct ≠ none ∧ s.job_struct ≠ none then { s with recruiter_message := some v }
    else s
  | .reset => {}

/-- Run a sequence of UI events from the freshly initialized session. -/
def runEvents (evs : List Ev) : Sess := evs.foldl stepEv {}

/-- The strategy outcome at rank `k` (0-based) of the fallback pipeline. -/
def stratAt (m1 m2 m3 : StratOutcome) (k : Fin 3) : StratOutcome :=
  [m1, m2, m3].get k

/-- The acceptance test the controller applies after the strategy of rank
`k`: a length gate for the first strategy, the bare success flag for the
others. -/
def acceptAt (k : Fin 3) (o : StratOutcome) : Bool :=
  if k = 0 then accept1 o else acceptFlag o

/-! # Claims -/

set_option maxRecDepth 8192 in
/-- **C1, counterexample.**  Content of length exactly 200 (the minimum
threshold) with the strategy's own success flag set is *rejected* by the
controller after strategy 1 (the check is strict `> 200`), and strategy 2's
result is accepted on its success flag alone, with empty content — the
controller applies no length check after strategy 2.  Both parts contradict
the claim. -/
theorem c1_sufficiency_counterexample :
    (({ success := true, content := ⟨List.replicate 200 'a'⟩ } : ScrapeResult)).content.length
        = 200 ∧
    scrapeWithFallback (.ok { success := true, content := ⟨List.replicate 200 'a'⟩ })
        (.ok { success := true, content := "", method := some "api_job_api" }) (.error ())
        "u" "job"
      = ({ success := true, content := "", method := some "api_job_api" }, [1, 2]) := by
  constructor
  · decide
  · decide

/-- **C1, amended.**  The controller accepts strategy 1's result only when
its success flag is set and the raw content length is strictly greater than
200: at length ≤ 200 the pipeline behaves exactly as if strategy 1 had
raised, and at length > 200 the result is returned as strategy 1's.  After
strategy 2 the controller accepts on the success flag alone, with no length
check.  Within strategy 1 itself, success additionally requires the
whitespace-stripped markdown to be strictly longer than 200 characters. -/
theorem c1_sufficiency_amended (r1 : ScrapeResult) (m2 m3 : StratOutcome)
    (url stype : String) :
    (r1.success = true → r1.content.length ≤ 200 →
      scrapeWithFallback (.ok r1) m2 m3 url stype
        = scrapeWithFallback (.error ()) m2 m3 url stype) ∧
    (r1.success = true → 200 < r1.content.length →
      scrapeWithFallback (.ok r1) m2 m3 url stype = (r1, [1])) ∧
    (∀ r2 : ScrapeResult, accept1 (.ok r1) = false → r2.success = true →
      scrapeWithFallback (.ok r1) (.ok r2) m3 url stype = (r2, [1, 2])) ∧
    (∀ (u : String) (c : CrawlResult),
      (scrapeUnauthenticated u c).success
        = (c.success && decide (200 < (pyStrip c.markdown).length))) := by
  refine ⟨?_, ?_, ?_, ?_⟩
  · intro hs hl
    have h1 : accept1 (.ok r1) = false := by
      simp only [accept1, hs, Bool.true_and, decide_eq_false_iff_not]
      omega
    have h2 : accept1 (.error ()) = false := rfl
    simp only [scrapeWithFallback, h1, h2, Bool.false_eq_true, if_false]
  · intro hs hl
    have h1 : accept1 (.ok r1) = true := by
      simp only [accept1, hs, Bool.true_and, decide_eq_true_eq]
      omega
    simp only [scrapeWithFallback, h1, if_true, okResult]
  · intro r2 h1 h2
    have h2' : acceptFlag (.ok r2) = true := h2
    simp only [scrapeWithFallback, h1, h2', Bool.false_eq_true, if_false, if_true, okResult]
  · intro u c
    by_cases h : (c.success && decide (200 < (pyStrip c.markdown).length)) = true
    · simp [scrapeUnauthenticated, h]
    · simp only [Bool.not_eq_true] at h
      simp [scrapeUnauthenticated, h]

set_option maxRecDepth 8192 in
/-- Witness for C1 at concrete inputs: a 200-character success is treated
as a failure of strategy 1; a 201-character success is accepted; a
flag-only strategy-2 success with empty content is accepted. -/
theorem c1_sufficiency_witness :
    (scrapeWithFallback (.ok { success := true, content := ⟨List.replicate 200 'b'⟩ })
        (.error ()) (.error ()) "w" "job"
      = scrapeWithFallback (.error ()) (.error ()) (.error ()) "w" "job") ∧
    (scrapeWithFallback (.ok { success := true, content := ⟨List.replicate 201 'b'⟩ })
        (.error ()) (.error ()) "w" "job"
      = ({ success := true, content := ⟨List.replicate 201 'b'⟩ }, [1])) ∧
    (scrapeWithFallback (.ok {}) (.ok { success := true }) (.error ()) "w" "job"
      = ({ success := true }, [1, 2])) :=
  ⟨(c1_sufficiency_amended { success := true, content := ⟨List.replicate 200 'b'⟩ }
      (.error ()) (.error ()) "w" "job").1 rfl (by decide),
   (c1_sufficiency_amended { success := true, content := ⟨List.replicate 201 'b'⟩ }
      (.error ()) (.error ()) "w" "job").2.1 rfl (by decide),
   (c1_sufficiency_amended {} (.error ()) (.error ()) "w" "job").2.2.1
      { success := true } (by decide) rfl⟩

/-- **C2.**  When all three strategies fail (raise or are not accepted), the
pipeline returns the manual-fallback dictionary — the `MANUAL_INPUT_REQUIRED`
terminal result with a human-readable message and exactly 4 ordered
remediation steps — and exactly the three strategies were attempted. -/
theorem c2_exhaustion_manual_fallback (m1 m2 m3 : StratOutcome) (url stype : String)
    (h1 : accept1 m1 = false) (h2 : acceptFlag m2 = false) (h3 : acceptFlag m3 = false) :
    scrapeWithFallback m1 m2 m3 url stype = (createManualFallback url stype, [1, 2, 3]) ∧
    (createManualFallback url stype).error = some "MANUAL_INPUT_REQUIRED" ∧
    ∃ instr, (createManualFallback url stype).instructions = some instr ∧
      instr.message = "Automated " ++ stype ++
        " scraping failed. Please provide the information manually." ∧
      instr.steps.length = 4 := by
  refine ⟨by simp [scrapeWithFallback, h1, h2, h3], rfl, ?_⟩
  exact ⟨_, rfl, rfl, rfl⟩

/-- Witness for C2: all strategies raising produces the manual fallback for
a job target. -/
theorem c2_exhaustion_witness :
    scrapeWithFallback (.error ()) (.error ()) (.error ()) "w2" "job"
      = (createManualFallback "w2" "job", [1, 2, 3]) :=
  (c2_exhaustion_manual_fallback (.error ()) (.error ()) (.error ()) "w2" "job"
    (by decide) (by decide) (by decide)).1

set_option maxRecDepth 8192 in
/-- **C3, counterexample.**  Strategy 0 "would succeed" in the claim's sense
(success flag set, content length ≥ threshold, namely = 200), all later
strategies fail, yet the pipeline does not return strategy 0's result: it
falls through to the manual fallback, whose method id differs. -/
theorem c3_ordering_counterexample :
    let r : ScrapeResult :=
      { success := true, content := ⟨List.replicate 200 'c'⟩
        method := some "unauthenticated_direct" }
    r.success = true ∧ 200 ≤ r.content.length ∧
    scrapeWithFallback (.ok r) (.error ()) (.error ()) "u3" "job"
      = (createManualFallback "u3" "job", [1, 2, 3]) ∧
    (createManualFallback "u3" "job").method ≠ some "unauthenticated_direct" := by
  refine ⟨rfl, by decide, by decide, by decide⟩

/-- **C3, amended.**  With "strategy `k` accepted" meaning the controller's
actual acceptance test (success flag and raw length > 200 for strategy 0,
success flag alone for strategies 1 and 2): if strategies before `k` are
not accepted and strategy `k` is, then the pipeline attempts exactly
strategies 0..k in rank order and returns strategy `k`'s result verbatim —
in particular its method id. -/
theorem c3_ordering_amended (m1 m2 m3 : StratOutcome) (url stype : String) (k : Fin 3)
    (hfail : ∀ j, j < k → acceptAt j (stratAt m1 m2 m3 j) = false)
    (hsucc : acceptAt k (stratAt m1 m2 m3 k) = true) :
    scrapeWithFallback m1 m2 m3 url stype
      = (okResult (stratAt m1 m2 m3 k), (List.range (k + 1)).map (· + 1)) ∧
    (scrapeWithFallback m1 m2 m3 url stype).1.method
      = (okResult (stratAt m1 m2 m3 k)).method := by
  fin_cases k
  · simp only [acceptAt, stratAt] at hsucc
    simp_all [scrapeWithFallback, stratAt, List.range_succ]
  · have h0 : accept1 m1 = false := by
      have := hfail 0 (by decide)
      simpa [acceptAt, stratAt] using this
    simp only [acceptAt, stratAt] at hsucc
    simp_all [scrapeWithFallback, stratAt, List.range_succ]
  · have h0 : accept1 m1 = false := by
      have := hfail 0 (by decide)
      simpa [acceptAt, stratAt] using this
    have h1 : acceptFlag m2 = false := by
      have := hfail 1 (by decide)
      simpa [acceptAt, stratAt] using this
    simp only [acceptAt, stratAt] at hsucc
    simp_all [scrapeWithFallback, stratAt, List.range_succ]

/-- Witness for C3 at `k = 1`: strategy 0 raises, strategy 1 succeeds; its
result (and method id) is returned after attempts `[1, 2]`. -/
theorem c3_ordering_witness :
    scrapeWithFallback (.error ()) (.ok { success := true, method := some "api_job_api" })
        (.error ()) "w3" "job"
      = ({ success := true, method := some "api_job_api" }, [1, 2]) := by
  have h := c3_ordering_amended (.error ())
    (.ok { success := true, method := some "api_job_api" }) (.error ()) "w3" "job" 1
    (by decide) (by decide)
  simpa using h.1

/-- **C4.**  Evaluation at the failing input: with operator-supplied manual
text `"x"`, `fetch_linkedin_job_enhanced` takes the manual branch but
returns `markdown = None` (the formatting helper `format_manual_job_text`
is an unimplemented `pass` stub) and carries no method tag — the result is
not a populated, manual-tagged document.  The company-side manual path
(`fetch_recruiter_info`), by contrast, does produce a populated markdown
with no error field and metadata tagged `"Manual input"`, which is what the
claim describes. -/
theorem c4_manual_job_markdown_stub :
    (fetch_linkedin_job_enhanced (.error ()) (.error ()) (.error ())
        "https://www.linkedin.com/jobs/view/123" (some "x")).markdown = none ∧
    (fetch_linkedin_job_enhanced (.error ()) (.error ()) (.error ())
        "https://www.linkedin.com/jobs/view/123" (some "x")).method = none ∧
    (fetch_linkedin_job_enhanced (.error ()) (.error ()) (.error ())
        "https://www.linkedin.com/jobs/view/123" (some "x")).error = none ∧
    (fetch_recruiter_info "https://www.linkedin.com/company/acme" (some "x")
        (.error "net down") "").error = none ∧
    (fetch_recruiter_info "https://www.linkedin.com/company/acme" (some "x")
        (.error "net down") "").markdown.getD "" ≠ "" ∧
    ((fetch_recruiter_info "https://www.linkedin.com/company/acme" (some "x")
        (.error "net down") "").metadata.map (fun m => m.source)).getD none
      = some (some "Manual input") := by
  refine ⟨rfl, rfl, rfl, ?_, ?_, ?_⟩ <;> decide

/-- **C8.**  `read_cv` dispatches on the lower-cased extension: `.pdf`,
`.tex`/`.latex` and `.docx` are routed to the corresponding reader, and any
other extension fails with the unsupported-format error without invoking
any reader (the error is independent of the reader functions). -/
theorem c8_read_cv_dispatch (readPdf readLatex readDocx : String → String) (p : String) :
    (strLower (splitextExt p) = ".pdf" →
      read_cv readPdf readLatex readDocx p = .ok (readPdf p)) ∧
    (strLower (splitextExt p) = ".tex" ∨ strLower (splitextExt p) = ".latex" →
      read_cv readPdf readLatex readDocx p = .ok (readLatex p)) ∧
    (strLower (splitextExt p) = ".docx" →
      read_cv readPdf readLatex readDocx p = .ok (readDocx p)) ∧
    (strLower (splitextExt p) ∉ ([".pdf", ".tex", ".latex", ".docx"] : List String) →
      ∀ f g h : String → String,
        read_cv f g h p = .error ("Unsupported file type: " ++ strLower (splitextExt p))) := by
  refine ⟨?_, ?_, ?_, ?_⟩
  · intro h
    simp [read_cv, h]
  · rintro (h | h) <;> simp [read_cv, h]
  · intro h
    simp [read_cv, h]
  · intro h f g k
    simp only [List.mem_cons, List.not_mem_nil, or_false, not_or] at h
    obtain ⟨h1, h2, h3, h4⟩ := h
    simp [read_cv, h1, h2, h3, h4]

/-- Witness for C8 at concrete paths, including a case-insensitive one. -/
theorem c8_read_cv_witness :
    read_cv (fun _ => "P") (fun _ => "L") (fun _ => "D") "cv.PDF" = .ok "P" ∧
    read_cv (fun _ => "P") (fun _ => "L") (fun _ => "D") "cv.docx" = .ok "D" ∧
    read_cv (fun _ => "P") (fun _ => "L") (fun _ => "D") "cv.txt"
      = .error "Unsupported file type: .txt" :=
  ⟨(c8_read_cv_dispatch (fun _ => "P") (fun _ => "L") (fun _ => "D") "cv.PDF").1 (by decide),
   (c8_read_cv_dispatch (fun _ => "P") (fun _ => "L") (fun _ => "D") "cv.docx").2.2.1 (by decide),
   (c8_read_cv_dispatch (fun _ => "P") (fun _ => "L") (fun _ => "D") "cv.txt").2.2.2 (by decide)
     (fun _ => "P") (fun _ => "L") (fun _ => "D")⟩

/-- **C10.**  A manual-text argument that is `None`, empty, or whitespace-only
is treated exactly as an absent argument by both manual-input entry points:
the manual branch is not taken and the automated path runs as with no
manual text. -/
theorem c10_blank_manual_ignored (m1 m2 m3 : StratOutcome) (crawl : CrawlOutcome)
    (emsg jobUrl compUrl : String) (mt : Option String)
    (hblank : mt = none ∨ mt = some "" ∨ ∃ t, mt = some t ∧ pyStrip t = "") :
    manualTextProvided mt = false ∧
    fetch_linkedin_job_enhanced m1 m2 m3 jobUrl mt
      = fetch_linkedin_job_enhanced m1 m2 m3 jobUrl none ∧
    fetch_recruiter_info compUrl mt crawl emsg
      = fetch_recruiter_info compUrl none crawl emsg := by
  have hmp : manualTextProvided mt = false := by
    rcases hblank with h | h | ⟨t, ht, hs⟩
    · simp [h, manualTextProvided]
    · simp [h, manualTextProvided]
    · simp [ht, manualTextProvided, hs]
  have hn : manualTextProvided none = false := rfl
  refine ⟨hmp, ?_, ?_⟩
  · simp only [fetch_linkedin_job_enhanced, hmp, hn, Bool.false_eq_true, if_false]
  · simp only [fetch_recruiter_info, hmp, hn, Bool.false_eq_true, if_false]

/-! ### Helper lemmas for the normalizer claim -/

theorem dropWhile_eq_self_of_front {α : Type} {p : α → Bool} {r m : List α}
    (hm : List.dropWhile p m = m) (hpre : r <+: m) : List.dropWhile p r = r := by
  cases r with
  | nil => rfl
  | cons c r' =>
    obtain ⟨t, ht⟩ := hpre
    have hc : p c = false := by
      by_contra hcon
      have hc' : p c = true := by simpa using hcon
      rw [← ht, List.cons_append] at hm
      simp only [List.dropWhile_cons, hc', if_true] at hm
      have hlen := congrArg List.length hm
      rw [List.length_cons] at hlen
      have hle : (List.dropWhile p (r' ++ t)).length ≤ (r' ++ t).length :=
        (List.dropWhile_sublist _).length_le
      omega
    simp [List.dropWhile_cons, hc]

theorem pyStripL_eq_rdropWhile (l : List Char) :
    pyStripL l = List.rdropWhile pyIsSpace (l.dropWhile pyIsSpace) := rfl

theorem pyStripL_idem (l : List Char) : pyStripL (pyStripL l) = pyStripL l := by
  rw [pyStripL_eq_rdropWhile l, pyStripL_eq_rdropWhile]
  have hm : List.dropWhile pyIsSpace (List.dropWhile pyIsSpace l)
      = List.dropWhile pyIsSpace l := List.dropWhile_idempotent _ _
  have hpre : List.rdropWhile pyIsSpace (List.dropWhile pyIsSpace l)
      <+: List.dropWhile pyIsSpace l := List.rdropWhile_prefix _ _
  rw [dropWhile_eq_self_of_front hm hpre, List.rdropWhile_idempotent]

/-- Invariant of whitespace-collapsed text: every whitespace character is a
plain space, and no two adjacent characters are both whitespace. -/
def Collapsed (l : List Char) : Prop :=
  (∀ c ∈ l, pyIsSpace c = true → c = ' ') ∧
    l.Chain' (fun a b => ¬(pyIsSpace a = true ∧ pyIsSpace b = true))

theorem collapseAux_head_not_space (l : List Char) :
    ∀ c, (collapseAux true l).head? = some c → pyIsSpace c = false := by
  induction l with
  | nil => intro c h; simp [collapseAux] at h
  | cons d t ih =>
    intro c h
    by_cases hd : pyIsSpace d = true
    · rw [show collapseAux true (d :: t) = collapseAux true t by simp [collapseAux, hd]] at h
      exact ih c h
    · have : collapseAux true (d :: t) = d :: collapseAux false t := by
        simp [collapseAux, hd]
      rw [this] at h
      simp only [List.head?_cons, Option.some_inj] at h
      subst h
      simpa using hd

theorem collapseAux_all_space_eq (l : List Char) :
    ∀ b, ∀ c ∈ collapseAux b l, pyIsSpace c = true → c = ' ' := by
  induction l with
  | nil => intro b c h; simp [collapseAux] at h
  | cons d t ih =>
    intro b c hc hws
    by_cases hd : pyIsSpace d = true
    · cases b with
      | true =>
        rw [show collapseAux true (d :: t) = collapseAux true t by simp [collapseAux, hd]] at hc
        exact ih true c hc hws
      | false =>
        rw [show collapseAux false (d :: t) = ' ' :: collapseAux true t by
          simp [collapseAux, hd]] at hc
        rcases List.mem_cons.mp hc with h | h
        · exact h
        · exact ih true c h hws
    · rw [show collapseAux b (d :: t) = d :: collapseAux false t by simp [collapseAux, hd]] at hc
      rcases List.mem_cons.mp hc with h | h
      · subst h; exact absurd hws (by simpa using hd)
      · exact ih false c h hws

theorem collapseAux_chain (l : List Char) :
    ∀ b, (collapseAux b l).Chain' (fun a b => ¬(pyIsSpace a = true ∧ pyIsSpace b = true)) := by
  induction l with
  | nil => intro b; simp [collapseAux]
  | cons d t ih =>
    intro b
    by_cases hd : pyIsSpace d = true
    · cases b with
      | true =>
        rw [show collapseAux true (d :: t) = collapseAux true t by simp [collapseAux, hd]]
        exact ih true
      | false =>
        rw [show collapseAux false (d :: t) = ' ' :: collapseAux true t by
          simp [collapseAux, hd]]
        rw [List.chain'_cons']
        refine ⟨?_, ih true⟩
        intro y hy
        have := collapseAux_head_not_space t y hy
        simp [this]
    · rw [show collapseAux b (d :: t) = d :: collapseAux false t by simp [collapseAux, hd]]
      rw [List.chain'_cons']
      refine ⟨?_, ih false⟩
      intro y hy
      simp only [not_and]
      intro hws
      exact absurd hws (by simpa using hd)

theorem collapseWs_collapsed (l : List Char) : Collapsed (collapseWs l) :=
  ⟨collapseAux_all_space_eq l false, collapseAux_chain l false⟩

theorem collapsed_of_inner {l m : List Char} (h : Collapsed m) (hinf : l <:+: m) :
    Collapsed l :=
  ⟨fun c hc hws => h.1 c (List.Sublist.subset (List.IsInfix.sublist hinf) hc) hws,
   List.Chain'.infix h.2 hinf⟩

theorem pyStripL_inner (l : List Char) : pyStripL l <:+: l := by
  rw [pyStripL_eq_rdropWhile]
  obtain ⟨t, ht⟩ : List.rdropWhile pyIsSpace (l.dropWhile pyIsSpace)
      <+: l.dropWhile pyIsSpace := List.rdropWhile_prefix _ _
  obtain ⟨u, hu⟩ : l.dropWhile pyIsSpace <:+ l := List.dropWhile_suffix _
  exact ⟨u, t, by rw [List.append_assoc, ht, hu]⟩

theorem collapseAux_eq_self_of_collapsed {l : List Char} (h : Collapsed l) :
    collapseAux false l = l := by
  induction l with
  | nil => rfl
  | cons d t ih =>
    obtain ⟨hmem, hchain⟩ := h
    rw [List.chain'_cons'] at hchain
    obtain ⟨hhead, hchain'⟩ := hchain
    have hcolt : Collapsed t := ⟨fun c hc => hmem c (List.mem_cons_of_mem d hc), hchain'⟩
    have iht := ih hcolt
    by_cases hd : pyIsSpace d = true
    · have hdsp : d = ' ' := hmem d (List.mem_cons_self d t) hd
      subst hdsp
      rw [show collapseAux false (' ' :: t) = ' ' :: collapseAux true t by
        simp [collapseAux, pyIsSpace]]
      congr 1
      cases t with
      | nil => rfl
      | cons e t' =>
        have he : pyIsSpace e = false := by
          have := hhead e (by simp)
          by_contra hcon
          exact this ⟨by decide, by simpa using hcon⟩
        rw [show collapseAux true (e :: t') = e :: collapseAux false t' by simp [collapseAux, he]]
        rw [show collapseAux false (e :: t') = e :: collapseAux false t' by
          simp [collapseAux, he]] at iht
        exact iht
    · rw [show collapseAux false (d :: t) = d :: collapseAux false t by simp [collapseAux, hd]]
      rw [iht]

/-- **C9, counterexample.**  `clean_text` is not idempotent: deleting a
matched UI pattern can leave a double space that only the next run's
whitespace-collapse removes.  On
`"a Show more hidden Show less b"` the first application yields `"a  b"`
(two spaces) and the second `"a b"`. -/
theorem c9_normalizer_counterexample :
    cleanText "a Show more hidden Show less b" = "a  b" ∧
    cleanText (cleanText "a Show more hidden Show less b") = "a b" ∧
    cleanText (cleanText "a Show more hidden Show less b")
      ≠ cleanText "a Show more hidden Show less b" := by
  refine ⟨by decide, by decide, by decide⟩

/-- **C9, amended.**  `clean_text` is idempotent on every input on which the
UI-noise-removal stage removes nothing (neither from the collapsed input
nor from its stripped form); in general a second application can differ,
because a pattern deletion can leave a double space (see the
counterexample). -/
theorem c9_normalizer_amended (x : String)
    (h1 : removeUI (collapseWs (pyStripL x.data)) = collapseWs (pyStripL x.data))
    (h2 : removeUI (pyStripL (collapseWs (pyStripL x.data)))
        = pyStripL (collapseWs (pyStripL x.data))) :
    cleanText (cleanText x) = cleanText x := by
  by_cases hx : x = ""
  · subst hx; rfl
  · have hxd : cleanText x = ⟨pyStripL (removeUI (collapseWs (pyStripL x.data)))⟩ := by
      simp [cleanText, hx, cleanTextL]
    rw [hxd, h1]
    by_cases hynil : pyStripL (collapseWs (pyStripL x.data)) = []
    · rw [hynil]
      rfl
    · have hyne : (⟨pyStripL (collapseWs (pyStripL x.data))⟩ : String) ≠ "" := by
        intro hcon
        exact hynil (congrArg String.data hcon)
      have hexp : cleanText ⟨pyStripL (collapseWs (pyStripL x.data))⟩
          = ⟨pyStripL (removeUI (collapseWs
              (pyStripL (pyStripL (collapseWs (pyStripL x.data))))))⟩ := by
        simp [cleanText, hyne, cleanTextL]
      rw [hexp, pyStripL_idem]
      have hcoll : collapseWs (pyStripL (collapseWs (pyStripL x.data)))
          = pyStripL (collapseWs (pyStripL x.data)) :=
        collapseAux_eq_self_of_collapsed
          (collapsed_of_inner (collapseWs_collapsed (pyStripL x.data)) (pyStripL_inner _))
      rw [hcoll, h2, pyStripL_idem]

/-- Witness for C9 on an input without UI-noise patterns: double
application agrees with single application. -/
theorem c9_normalizer_witness :
    cleanText (cleanText "hello  world") = cleanText "hello  world" :=
  c9_normalizer_amended "hello  world" (by decide) (by decide)

/-- Witness for C10 with whitespace-only manual text and concrete
automated outcomes. -/
theorem c10_blank_manual_witness :
    fetch_linkedin_job_enhanced (.error ()) (.error ()) (.error ()) "jw" (some "  ")
      = fetch_linkedin_job_enhanced (.error ()) (.error ()) (.error ()) "jw" none ∧
    fetch_recruiter_info "cw" (some "  ") (.error "e") ""
      = fetch_recruiter_info "cw" none (.error "e") "" :=
  ⟨(c10_blank_manual_ignored (.error ()) (.error ()) (.error ()) (.error "e") "" "jw" "cw"
      (some "  ") (Or.inr (Or.inr ⟨"  ", rfl, by decide⟩))).2.1,
   (c10_blank_manual_ignored (.error ()) (.error ()) (.error ()) (.error "e") "" "jw" "cw"
      (some "  ") (Or.inr (Or.inr ⟨"  ", rfl, by decide⟩))).2.2⟩

/-! ### Helper lemmas for the session-state claims -/

set_option maxRecDepth 8192
theorem process_job_state (m1 m2 m3 : StratOutcome) (p : Option String) (ju : String)
    (s : Sess) :
    ∃ b sm, (process_job m1 m2 m3 p ju s).1
        = { s with job_manual_required := b, scraping_method := sm } ∧
      ((process_job m1 m2 m3 p ju s).2 ≠ none → b = s.job_manual_required) := by
  simp only [process_job]
  split_ifs
  · exact ⟨true, s.scraping_method, rfl, by simp⟩
  · exact ⟨true, s.scraping_method, rfl, by simp⟩
  · exact ⟨s.job_manual_required,
      (fetch_linkedin_job_enhanced m1 m2 m3 ju s.manual_job_text).method, rfl, fun _ => rfl⟩
  · exact ⟨s.job_manual_required, s.scraping_method, rfl, fun _ => rfl⟩

theorem process_company_state (crawl : CrawlOutcome) (em cu : String) (s : Sess) :
    ∃ b, (process_company crawl em cu s).1 = { s with company_manual_required := b } := by
  simp only [process_company]
  split_ifs
  · exact ⟨s.company_manual_required, rfl⟩
  · exact ⟨true, rfl⟩
  · exact ⟨s.company_manual_required, rfl⟩

theorem process_recruiter_state (o : Except Unit RecruiterFetch) (ru : String) (s : Sess) :
    ∃ b, (process_recruiter o ru s).1 = { s with recruiter_manual_required := b } := by
  rcases o with e | raw <;> simp only [process_recruiter] <;> split_ifs <;>
    first
      | exact ⟨s.recruiter_manual_required, rfl⟩
      | exact ⟨true, rfl⟩

theorem analyzeTail_state (env : AnalyzeEnv) (cu ru : String) (s3 : Sess) :
    ∃ cb rb ci rp,
      (analyzeTail env cu ru s3).1 =
        { s3 with company_info := ci, recruiter_profile := rp,
                  company_manual_required := cb, recruiter_manual_required := rb,
                  match_results := env.matchRes } := by
  by_cases hcu : cu = ""
  · by_cases hru : ru = ""
    · exact ⟨s3.company_manual_required, s3.recruiter_manual_required, s3.company_info,
        s3.recruiter_profile, by simp [analyzeTail, hcu, hru]⟩
    · obtain ⟨br, hr⟩ := process_recruiter_state env.recruiterRes ru s3
      refine ⟨s3.company_manual_required, br, s3.company_info,
        (process_recruiter env.recruiterRes ru s3).2, ?_⟩
      simp [analyzeTail, hcu, hru, hr]
  · obtain ⟨bc, hc⟩ := process_company_state env.companyCrawl env.companyCrawlErr cu s3
    by_cases hru : ru = ""
    · refine ⟨bc, s3.recruiter_manual_required,
        (process_company env.companyCrawl env.companyCrawlErr cu s3).2,
        s3.recruiter_profile, ?_⟩
      simp [analyzeTail, hcu, hru, hc]
    · obtain ⟨br, hr⟩ := process_recruiter_state env.recruiterRes ru
        { s3 with company_manual_required := bc,
                  company_info := (process_company env.companyCrawl env.companyCrawlErr cu s3).2 }
      refine ⟨bc, br, (process_company env.companyCrawl env.companyCrawlErr cu s3).2,
        (process_recruiter env.recruiterRes ru
          { s3 with company_manual_required := bc,
                    company_info := (process_company env.companyCrawl env.companyCrawlErr cu s3).2 }).2, ?_⟩
      simp [analyzeTail, hcu, hru, hc, hr]

theorem analyzeTail_trace (env : AnalyzeEnv) (cu ru : String) (s3 : Sess) :
    (analyzeTail env cu ru s3).2 =
      (if cu ≠ "" then [Step.company] else []) ++ (if ru ≠ "" then [Step.recruiter] else []) := rfl

theorem analyzeTail_match (env : AnalyzeEnv) (cu ru : String) (s3 : Sess) :
    (analyzeTail env cu ru s3).1.match_results = env.matchRes := by
  obtain ⟨cb, rb, ci, rp, h⟩ := analyzeTail_state env cu ru s3
  rw [h]


theorem process_job_fields (m1 m2 m3 : StratOutcome) (p : Option String) (ju : String)
    (s : Sess) :
    (process_job m1 m2 m3 p ju s).1.cover_letter = s.cover_letter ∧
    (process_job m1 m2 m3 p ju s).1.recruiter_message = s.recruiter_message ∧
    (process_job m1 m2 m3 p ju s).1.match_results = s.match_results ∧
    (process_job m1 m2 m3 p ju s).1.cv_struct = s.cv_struct ∧
    (process_job m1 m2 m3 p ju s).1.job_struct = s.job_struct ∧
    (process_job m1 m2 m3 p ju s).1.company_info = s.company_info := by
  simp only [process_job]
  split_ifs <;> simp

theorem process_company_fields (crawl : CrawlOutcome) (em cu : String) (s : Sess) :
    (process_company crawl em cu s).1.cover_letter = s.cover_letter ∧
    (process_company crawl em cu s).1.recruiter_message = s.recruiter_message ∧
    (process_company crawl em cu s).1.match_results = s.match_results ∧
    (process_company crawl em cu s).1.cv_struct = s.cv_struct ∧
    (process_company crawl em cu s).1.job_struct = s.job_struct ∧
    (process_company crawl em cu s).1.job_manual_required = s.job_manual_required ∧
    (process_company crawl em cu s).1.company_info = s.company_info := by
  simp only [process_company]
  split_ifs <;> simp

theorem process_recruiter_fields (o : Except Unit RecruiterFetch) (ru : String) (s : Sess) :
    (process_recruiter o ru s).1.cover_letter = s.cover_letter ∧
    (process_recruiter o ru s).1.recruiter_message = s.recruiter_message ∧
    (process_recruiter o ru s).1.match_results = s.match_results ∧
    (process_recruiter o ru s).1.cv_struct = s.cv_struct ∧
    (process_recruiter o ru s).1.job_struct = s.job_struct ∧
    (process_recruiter o ru s).1.job_manual_required = s.job_manual_required ∧
    (process_recruiter o ru s).1.company_info = s.company_info := by
  rcases o with e | raw <;> simp only [process_recruiter] <;> split_ifs <;> simp

set_option maxRecDepth 8192 in
/-- **C5, counterexample.**  An analysis action in which the job target
exhausts (all strategies fail, `MANUAL_INPUT_REQUIRED`) stops at the job
step (`st.stop()`): the company and recruiter steps are not attempted and
the matching step does not run, even though URLs were supplied and the
company crawl, had it been attempted, would have succeeded (250 characters
of stripped content, above the 200 threshold). -/
theorem c5_job_abort_counterexample :
    let env : AnalyzeEnv :=
      { cvRes := some "cv-struct"
        m1 := .error (), m2 := .error (), m3 := .error ()
        jobParse := some "job-struct"
        companyCrawl := .ok { success := true, markdown := ⟨List.replicate 250 'm'⟩
                              cleaned_html := "" }
        companyCrawlErr := ""
        recruiterRes := .ok {}
        matchRes := some "match" }
    let out := analyzeClick env true "https://www.linkedin.com/jobs/view/1"
        "https://www.linkedin.com/company/acme" "https://www.linkedin.com/in/r" {}
    out.2 = [Step.cv, Step.job] ∧
    Step.company ∉ out.2 ∧ Step.recruiter ∉ out.2 ∧ Step.matching ∉ out.2 ∧
    out.1.company_info = none ∧ out.1.job_manual_required = true ∧
    (pyStrip ⟨List.replicate 250 'm'⟩).length = 250 := by
  refine ⟨by decide, by decide, by decide, by decide, by decide, by decide, by decide⟩

/-- **C5, amended.**  Job-target exhaustion aborts the analysis action: the
trace stops at the job step.  Company- and recruiter-target failures,
however, never abort the remaining targets: whenever the CV and job stages
succeed, the company, recruiter and matching steps are all attempted (in
order), and the match result is stored, regardless of the company and
recruiter outcomes. -/
theorem c5_partial_abort_amended (env : AnalyzeEnv) (ju cu ru : String) (s0 : Sess)
    (hcv : env.cvRes ≠ none) (hju : ju ≠ "") :
    ((process_job env.m1 env.m2 env.m3 env.jobParse ju
        (clearSlotsCv s0 env.cvRes)).2 = none →
      (analyzeClick env true ju cu ru s0).2 = [Step.cv, Step.job]) ∧
    ((process_job env.m1 env.m2 env.m3 env.jobParse ju
        (clearSlotsCv s0 env.cvRes)).2 ≠ none → cu ≠ "" → ru ≠ "" →
      (analyzeClick env true ju cu ru s0).2
          = [Step.cv, Step.job, Step.company, Step.recruiter, Step.matching] ∧
      (analyzeClick env true ju cu ru s0).1.match_results = env.matchRes) := by
  constructor
  · intro hj
    simp [analyzeClick, hju, hcv, hj]
  · intro hj hcu hru
    simp [analyzeClick, hju, hcv, hj, hcu, hru, analyzeTail_trace, analyzeTail_match]

/-- Witness for C5: job succeeds via strategy 2, company scraping raises
(manual-input prompt), recruiter fetch raises — recruiter and matching are
still attempted and the match result is stored. -/
theorem c5_partial_abort_witness :
    (analyzeClick
      { cvRes := some "cv-w5"
        m1 := .error (), m2 := .ok { success := true, method := some "api_job_api" }
        m3 := .error ()
        jobParse := some "job-w5"
        companyCrawl := .error "connection refused"
        companyCrawlErr := ""
        recruiterRes := .error ()
        matchRes := some "match-w5" }
      true "https://www.linkedin.com/jobs/view/5"
      "https://www.linkedin.com/company/five" "https://www.linkedin.com/in/five" {}).2
        = [Step.cv, Step.job, Step.company, Step.recruiter, Step.matching] ∧
    (analyzeClick
      { cvRes := some "cv-w5"
        m1 := .error (), m2 := .ok { success := true, method := some "api_job_api" }
        m3 := .error ()
        jobParse := some "job-w5"
        companyCrawl := .error "connection refused"
        companyCrawlErr := ""
        recruiterRes := .error ()
        matchRes := some "match-w5" }
      true "https://www.linkedin.com/jobs/view/5"
      "https://www.linkedin.com/company/five" "https://www.linkedin.com/in/five" {}).1.match_results
        = some "match-w5" :=
  c5_partial_abort_amended
    { cvRes := some "cv-w5"
      m1 := .error (), m2 := .ok { success := true, method := some "api_job_api" }
      m3 := .error ()
      jobParse := some "job-w5"
      companyCrawl := .error "connection refused"
      companyCrawlErr := ""
      recruiterRes := .error ()
      matchRes := some "match-w5" }
    "https://www.linkedin.com/jobs/view/5" "https://www.linkedin.com/company/five"
    "https://www.linkedin.com/in/five" {} (by decide) (by decide)
    |>.2 (by decide) (by decide) (by decide)

/-- **C6, counterexample.**  A reachable session in which supplying manual
job text after a scraping failure does *not* clear a previously generated
artifact: analysis 1 fails on the job target (flag raised), analysis 2
succeeds automatically (flag stays raised — see C7), a cover letter is
generated, then the operator submits manual job text.  The manual text is
stored (an upstream job input is written) while the cover letter survives. -/
theorem c6_artifact_clear_counterexample :
    let envFail : AnalyzeEnv :=
      { cvRes := some "cv6", m1 := .error (), m2 := .error (), m3 := .error ()
        jobParse := some "job6", companyCrawl := .error "x", companyCrawlErr := ""
        recruiterRes := .error (), matchRes := some "match6" }
    let envOk : AnalyzeEnv :=
      { envFail with m2 := .ok { success := true, method := some "api_job_api" } }
    let s3 := runEvents
      [ .analyze envFail true "ju6" "" "", .analyze envOk true "ju6" "" "",
        .genCover "letter6" ]
    let s4 := stepEv s3 (.parseJob "Great engineering role at Acme")
    s3.cover_letter = some "letter6" ∧
    s3.job_manual_required = true ∧
    s4.manual_job_text = some "Great engineering role at Acme" ∧
    s4.job_manual_required = false ∧
    s4.cover_letter = some "letter6" := by
  refine ⟨by decide, by decide, by decide, by decide, by decide⟩

/-- Projection facts about a completed analyze action: cover letter and
outreach message end empty; the match result is empty when the job slot is
empty; and the manual-required flag ends `true` only when it was already
`true` or the job slot ends empty. -/
theorem analyzeClick_post (env : AnalyzeEnv) (ju cu ru : String) (s : Sess) (hju : ju ≠ "") :
    (analyzeClick env true ju cu ru s).1.cover_letter = none ∧
    (analyzeClick env true ju cu ru s).1.recruiter_message = none ∧
    ((analyzeClick env true ju cu ru s).1.job_struct = none →
      (analyzeClick env true ju cu ru s).1.match_results = none) ∧
    ((analyzeClick env true ju cu ru s).1.job_manual_required = true →
      s.job_manual_required = true ∨ (analyzeClick env true ju cu ru s).1.job_struct = none) := by
  by_cases hcv : env.cvRes = none
  · simp [analyzeClick, hju, hcv, clearSlotsCv, clearSlots]
  · obtain ⟨b3, sm3, h3, hb3⟩ := process_job_state env.m1 env.m2 env.m3 env.jobParse ju
      (clearSlotsCv s env.cvRes)
    by_cases hj : (process_job env.m1 env.m2 env.m3 env.jobParse ju
        (clearSlotsCv s env.cvRes)).2 = none
    · simp only [analyzeClick, hju, hcv, hj]
      rw [h3]
      simp [clearSlotsCv, clearSlots]
    · obtain ⟨cb, rb, ci, rp, htail⟩ := analyzeTail_state env cu ru
        { (process_job env.m1 env.m2 env.m3 env.jobParse ju (clearSlotsCv s env.cvRes)).1 with
          job_struct := (process_job env.m1 env.m2 env.m3 env.jobParse ju
            (clearSlotsCv s env.cvRes)).2 }
      simp only [analyzeClick, hju, hcv, hj]
      rw [htail, h3]
      have hb := hb3 hj
      simp only [clearSlotsCv, clearSlots] at hj
      simp [clearSlotsCv, clearSlots, hj, hb]

/-- **C6, amended.**  Generated artifacts are cleared at the start of every
analysis action, before any upstream slot is written: at the end of any
analysis action the cover letter and outreach message are empty, and the
match result is empty whenever the job slot is empty.  Supplying manual job
text, however, clears no generated artifact: the manual-parse transition
leaves cover letter, outreach message and match result untouched. -/
theorem c6_artifact_clear_amended (s : Sess) (env : AnalyzeEnv) (ju cu ru t : String)
    (hju : ju ≠ "") :
    (stepEv s (.analyze env true ju cu ru)).cover_letter = none ∧
    (stepEv s (.analyze env true ju cu ru)).recruiter_message = none ∧
    ((stepEv s (.analyze env true ju cu ru)).job_struct = none →
      (stepEv s (.analyze env true ju cu ru)).match_results = none) ∧
    (stepEv s (.parseJob t)).cover_letter = s.cover_letter ∧
    (stepEv s (.parseJob t)).recruiter_message = s.recruiter_message ∧
    (stepEv s (.parseJob t)).match_results = s.match_results := by
  obtain ⟨h1, h2, h3, _⟩ := analyzeClick_post env ju cu ru s hju
  have hparse : (stepEv s (.parseJob t)).cover_letter = s.cover_letter ∧
      (stepEv s (.parseJob t)).recruiter_message = s.recruiter_message ∧
      (stepEv s (.parseJob t)).match_results = s.match_results := by
    simp only [stepEv]
    split_ifs <;> simp
  exact ⟨h1, h2, h3, hparse.1, hparse.2.1, hparse.2.2⟩

/-- Witness for C6: an analyze action run on a session holding a cover
letter ends with the cover letter cleared, while supplying manual job text
leaves it in place. -/
theorem c6_artifact_clear_witness :
    (stepEv { cover_letter := some "w6", match_results := some "m6" }
        (.analyze { cvRes := none, m1 := .error (), m2 := .error (), m3 := .error ()
                    jobParse := none, companyCrawl := .error "e", companyCrawlErr := ""
                    recruiterRes := .error (), matchRes := none } true "juw" "" "")).cover_letter
      = none ∧
    (stepEv ({ cover_letter := some "w6" } : Sess) (.parseJob "some manual text")).cover_letter
      = some "w6" :=
  ⟨(c6_artifact_clear_amended { cover_letter := some "w6", match_results := some "m6" }
      { cvRes := none, m1 := .error (), m2 := .error (), m3 := .error ()
        jobParse := none, companyCrawl := .error "e", companyCrawlErr := ""
        recruiterRes := .error (), matchRes := none } "juw" "" "" "some manual text"
      (by decide)).1,
   (c6_artifact_clear_amended { cover_letter := some "w6" }
      { cvRes := none, m1 := .error (), m2 := .error (), m3 := .error ()
        jobParse := none, companyCrawl := .error "e", companyCrawlErr := ""
        recruiterRes := .error (), matchRes := none } "juw" "" "" "some manual text"
      (by decide)).2.2.2.1⟩

/-- **C7, counterexample.**  A reachable state violating the
flag/value exclusivity: an analysis in which job scraping fails raises the
manual-required flag; a second analysis succeeds automatically but never
clears the flag, leaving a state with `job_manual_required = true` and a
non-empty job slot. -/
theorem c7_flag_value_counterexample :
    let envFail : AnalyzeEnv :=
      { cvRes := some "cv7", m1 := .error (), m2 := .error (), m3 := .error ()
        jobParse := some "job7", companyCrawl := .error "x", companyCrawlErr := ""
        recruiterRes := .error (), matchRes := some "m7" }
    let envOk : AnalyzeEnv :=
      { envFail with m2 := .ok { success := true, method := some "api_job_api" } }
    let s := runEvents [ .analyze envFail true "ju7" "" "", .analyze envOk true "ju7" "" "" ]
    s.job_manual_required = true ∧ s.job_struct = some "job7" :=
  ⟨by decide, by decide⟩

/-- **C7, amended.**  (1) Setting the flag coincides with the slot being
emptied: a fetch error makes `process_job` raise the flag and return no
value, and an analyze action that ends with the flag newly raised ends with
the job slot empty.  (2) The manual-parse action clears the flag.  But a
successful value does not clear the flag (see the counterexample), so the
claimed mutual exclusivity fails in reachable states. -/
theorem c7_flag_value_amended :
    (∀ (m1 m2 m3 : StratOutcome) (p : Option String) (ju : String) (s : Sess) (e : String),
      (fetch_linkedin_job_enhanced m1 m2 m3 ju s.manual_job_text).error = some e → e ≠ "" →
        process_job m1 m2 m3 p ju s = ({ s with job_manual_required := true }, none)) ∧
    (∀ (env : AnalyzeEnv) (ju cu ru : String) (s : Sess), ju ≠ "" →
      (stepEv s (.analyze env true ju cu ru)).job_manual_required = true →
        s.job_manual_required = true ∨
          (stepEv s (.analyze env true ju cu ru)).job_struct = none) ∧
    (∀ (s : Sess) (t : String), s.job_manual_required = true → pyStrip t ≠ "" →
      (stepEv s (.parseJob t)).job_manual_required = false) := by
  refine ⟨?_, ?_, ?_⟩
  · intro m1 m2 m3 p ju s e he hne
    simp only [process_job]
    by_cases hsent : (fetch_linkedin_job_enhanced m1 m2 m3 ju s.manual_job_text).error
        = some "MANUAL_INPUT_REQUIRED"
    · simp [hsent]
    · have hgd : ((fetch_linkedin_job_enhanced m1 m2 m3 ju s.manual_job_text).error.getD "")
          = e := by rw [he]; rfl
      simp [hsent, hgd, hne]
  · intro env ju cu ru s hju hflag
    exact (analyzeClick_post env ju cu ru s hju).2.2.2 hflag
  · intro s t hf ht
    simp [stepEv, hf, ht]

/-- Witness for C7: a raising fetch error sets the flag with an empty slot;
an analyze action on a fresh session that raises the flag leaves the slot
empty; the manual-parse action clears the flag. -/
theorem c7_flag_value_witness :
    process_job (.error ()) (.error ()) (.error ()) (some "p7") "juw7" {}
        = ({ ({} : Sess) with job_manual_required := true }, none) ∧
    (({} : Sess).job_manual_required = true ∨
      (stepEv ({} : Sess)
        (.analyze { cvRes := some "cvw7", m1 := .error (), m2 := .error (), m3 := .error ()
                    jobParse := some "jw7", companyCrawl := .error "x", companyCrawlErr := ""
                    recruiterRes := .error (), matchRes := none } true "juw7" "" "")).job_struct
        = none) ∧
    (stepEv ({ job_manual_required := true } : Sess)
        (.parseJob "pasted description")).job_manual_required = false :=
  ⟨c7_flag_value_amended.1 (.error ()) (.error ()) (.error ()) (some "p7") "juw7" {}
      "MANUAL_INPUT_REQUIRED" (by decide) (by decide),
   c7_flag_value_amended.2.1
      { cvRes := some "cvw7", m1 := .error (), m2 := .error (), m3 := .error ()
        jobParse := some "jw7", companyCrawl := .error "x", companyCrawlErr := ""
        recruiterRes := .error (), matchRes := none } "juw7" "" "" {} (by decide) (by decide),
   c7_flag_value_amended.2.2 { job_manual_required := true } "pasted description" rfl
      (by decide)⟩

end RecruiterAgent
